import Mathlib

/-!
Shallow embedding of `src/dsd_digitalocean/utils.py` (the dsd-digitalocean
bootstrap orchestrator) and proofs about it.

Modelling choices:

* The remote side (paramiko `client.connect` + `client.exec_command`) is
  abstracted as an oracle `Env`: given the index of the transport attempt
  (how many attempts happened before), the username used for the connection
  and the command text, it either fails with a transport/authentication
  error (`SSHErr`) or returns the raw (untrimmed) stdout/stderr texts.
  The host address, the password and the connect timeout are folded into
  the oracle, since the code only threads them through to `connect`.

* Observable side effects are threaded through an explicit state `St`:
  the process-wide `dsd_config.server_username`, the persisted log
  (`plugin_utils.write_output` appends unless `skip_logging` is true),
  the console output (always appended), the list of transport attempts
  (username, command) in order, the number of `client.close()` executions,
  the recorded `time.sleep` durations, and an instrumentation counter of
  `add_server_user` invocations.

* Python exceptions are modelled with `Except`.  `utils.py` raises
  `DSDCommandError(...)` in two places, but the name `DSDCommandError` is
  never imported or defined in the module, so evaluating it raises
  `NameError: name 'DSDCommandError' is not defined`.  This is modelled
  faithfully as `Exc.nameError "DSDCommandError"`; transport-level errors
  are `Exc.ssh e`.

* Python's `int(timeout / delay)` truncates toward zero; for nonnegative
  integers this is `Nat` division.  Python's `"pat" in s` substring test
  is `strIn`.  Python's truthiness test on `os.environ.get(...)` (None or
  empty string is falsy) is `truthy`.
-/

/-- Transport-level failures that `client.connect` / `exec_command` can raise:
`timeout` is Python `TimeoutError` (connection timed out — the Unreachable
condition), `authFailed` is `paramiko.ssh_exception.AuthenticationException`,
and `other` covers any other exception raised by the remote channel. -/
inductive SSHErr where
  | timeout
  | authFailed
  | other (msg : String)
deriving DecidableEq, Repr

/-- Exceptions that propagate out of the embedded functions: a transport
error raised by the SSH layer, or a Python `NameError` raised when an
undefined name (such as `DSDCommandError`) is evaluated. -/
inductive Exc where
  | ssh (e : SSHErr)
  | nameError (name : String)
deriving DecidableEq, Repr

/-- Oracle for the remote host: attempt index, username, command text ↦
either a transport error or the raw (untrimmed) stdout/stderr pair. -/
abbrev Env := Nat → String → String → Except SSHErr (String × String)

/-- Observable state threaded through the embedded functions. -/
structure St where
  /-- `dsd_config.server_username` — process-wide current login identity. -/
  server_username : String
  /-- Lines persisted to the log by `plugin_utils.write_output`
  (those with `skip_logging=False`). -/
  log : List String
  /-- All lines written by `plugin_utils.write_output` (console). -/
  console : List String
  /-- Transport attempts so far, in order: (username, command). -/
  trace : List (String × String)
  /-- Number of times `client.close()` has executed. -/
  closes : Nat
  /-- Recorded `time.sleep` durations, in order. -/
  sleeps : List Nat
  /-- Instrumentation: number of `add_server_user` invocations. -/
  addUserCalls : Nat
deriving Repr

/-- Embeds `plugin_utils.write_output(msg, skip_logging=...)`: always writes
to the console, and appends to the persisted log unless `skip_logging`. -/
def write_output (msg : String) (skip_logging : Bool) (st : St) : St :=
  { st with
    console := st.console ++ [msg]
    log := if skip_logging then st.log else st.log ++ [msg] }

/-- Embeds `time.sleep(n)` by recording the pause. -/
def sleep (n : Nat) (st : St) : St :=
  { st with sleeps := st.sleeps ++ [n] }

/-- Python truthiness of `os.environ.get(...)`: `None` and `""` are falsy. -/
def truthy (o : Option String) : Bool :=
  o.getD "" ≠ ""

/-- Python `str(...)` view of an optional environment value: `None` renders
as the string `"None"` inside an f-string. -/
def pyStr : Option String → String
  | some s => s
  | none => "None"

/-- Python whitespace test used by `str.strip()` (ASCII whitespace). -/
def isPySpace (c : Char) : Bool :=
  c == ' ' || c == '\t' || c == '\n' || c == '\x0d' || c == '\x0b' || c == '\x0c'

/-- Python `s.strip()`: drop whitespace from both ends. -/
def pyStrip (s : String) : String :=
  String.mk (((s.toList.dropWhile isPySpace).reverse.dropWhile isPySpace).reverse)

/-- Char-list version of `List.isPrefixOf`, used for the substring test. -/
def startsWithChars : List Char → List Char → Bool
  | [], _ => true
  | _ :: _, [] => false
  | a :: as, b :: bs => a == b && startsWithChars as bs

/-- Contiguous-sublist test on char lists. -/
def hasSubChars (pat : List Char) : List Char → Bool
  | [] => startsWithChars pat []
  | c :: rest => startsWithChars pat (c :: rest) || hasSubChars pat rest

/-- Python's substring test `pat in s`. -/
def strIn (pat s : String) : Bool :=
  hasSubChars pat.toList s.toList

/-- Embeds `run_server_cmd_ssh(cmd, timeout=10, show_output=True,
skip_logging=None)` (utils.py lines 13–56).  Logs the preamble (hiding the
command text when `show_output` is false), performs the transport attempt
through the oracle — the Python `try` body — then unconditionally executes
`client.close()` (the `finally`), and on success trims and (unless
suppressed) echoes both streams and returns them.  The transport attempt is
recorded in `trace` whether or not it succeeds; its index is the number of
prior attempts. -/
def run_server_cmd_ssh (env : Env) (cmd : String) (show_output : Bool)
    (skip_logging : Option Bool) (st : St) :
    Except Exc (String × String) × St :=
  -- If skip_logging is not explicitly set, set it to False.
  let skip := skip_logging.getD false
  let st := write_output "Running server command over SSH..." skip st
  let st :=
    if show_output then write_output ("  command: " ++ cmd) skip st
    else write_output "  (command not shown)" skip st
  let outcome := env st.trace.length st.server_username cmd
  let st := { st with trace := st.trace ++ [(st.server_username, cmd)] }
  match outcome with
  | .error e =>
    -- exception inside the try body; finally: client.close(); re-raise
    (.error (.ssh e), { st with closes := st.closes + 1 })
  | .ok (rawOut, rawErr) =>
    let st := { st with closes := st.closes + 1 }
    let stdout := pyStrip rawOut
    let stderr := pyStrip rawErr
    -- Show stdout and stderr, unless suppressed.
    let st := if stdout ≠ "" ∧ show_output then write_output stdout skip st else st
    let st := if stderr ≠ "" ∧ show_output then write_output stderr skip st else st
    (.ok (stdout, stderr), st)

/-- Embeds `configure_firewall()` (utils.py lines 58–65): allow OpenSSH,
then force-enable ufw, each through `run_server_cmd_ssh`. -/
def configure_firewall (env : Env) (st : St) : Except Exc Unit × St :=
  let st := write_output "Configuring firewall..." false st
  match run_server_cmd_ssh env "sudo ufw allow OpenSSH" true none st with
  | (.error e, st) => (.error e, st)
  | (.ok _, st) =>
    match run_server_cmd_ssh env "sudo ufw --force enable" true none st with
    | (.error e, st) => (.error e, st)
    | (.ok _, st) => (.ok (), st)

/-- Loop body of `check_server_available`: `for attempt in range(max_attempts)`
with `remaining = max_attempts - attempt` iterations left.  Only
`TimeoutError` (here `.ssh .timeout`) is caught; it logs, sleeps `delay`,
and retries.  Any other exception propagates.  Falling off the loop logs
and returns `False`. -/
def csaLoop (env : Env) (delay max_attempts : Nat) :
    Nat → St → Except Exc Bool × St
  | 0, st =>
    (.ok false, write_output "Server did not respond." false st)
  | remaining + 1, st =>
    let attempt := max_attempts - (remaining + 1)
    match run_server_cmd_ssh env "uptime" true none st with
    | (.ok _, st) =>
      (.ok true, write_output "  Server is available." false st)
    | (.error (.ssh .timeout), st) =>
      let st := write_output
        ("  Attempt " ++ toString (attempt + 1) ++ "/" ++
          toString max_attempts ++ " failed.") false st
      let st := write_output
        ("    Waiting " ++ toString delay ++
          "s for server to become available.") false st
      let st := sleep delay st
      csaLoop env delay max_attempts remaining st
    | (.error e, st) => (.error e, st)

/-- Embeds `check_server_available(delay=10, timeout=300)` (utils.py lines
149–169).  `max_attempts = int(timeout / delay)` is `Nat` division (Python
truncates toward zero).  Callers inside the module use the defaults, i.e.
`check_server_available env 10 300`. -/
def check_server_available (env : Env) (delay timeout : Nat) (st : St) :
    Except Exc Bool × St :=
  let st := write_output "Checking if server is responding..." false st
  let max_attempts := timeout / delay
  csaLoop env delay max_attempts max_attempts st

/-- Command text of the credential-setting step in `add_server_user`:
`f'echo "{django_username}:{password}" | chpasswd'` with
`django_username = "django_user"`. -/
def password_cmd (password : String) : String :=
  "echo \"django_user:" ++ password ++ "\" | chpasswd"

/-- Command text of the sudoers drop-in step in `add_server_user` (the
f-string at utils.py line 202, with `django_username = "django_user"`). -/
def sudoers_cmd : String :=
  "echo \"django_user ALL=(ALL) NOPASSWD:SETENV: /usr/bin/apt-get, NOPASSWD: /usr/bin/apt-get, /usr/bin/systemctl reboot, /usr/sbin/ufw\" | sudo tee /etc/sudoers.d/django_user"

/-- Embeds `add_server_user()` (utils.py lines 171–212).  `host_pw` is
`os.environ.get("DSD_HOST_PW")`.  Four provisioning commands run under the
current (administrative) identity; the credential-setting one with
`show_output=False, skip_logging=True`.  Then `dsd_config.server_username`
is switched to `django_user` and `check_server_available()` verifies the
new identity; on a `False` poll the code executes
`raise DSDCommandError(msg)` — but `DSDCommandError` is undefined in the
module, so Python raises `NameError`, modelled as
`.nameError "DSDCommandError"`.  The invocation counter `addUserCalls` is
instrumentation. -/
def add_server_user (env : Env) (host_pw : Option String) (st : St) :
    Except Exc Unit × St :=
  let st := { st with addUserCalls := st.addUserCalls + 1 }
  -- Add the new user.  (django_username = "django_user")
  let st := write_output "Adding non-root user: django_user" false st
  match run_server_cmd_ssh env "useradd -m django_user" true none st with
  | (.error e, st) => (.error e, st)
  | (.ok _, st) =>
    -- Set the password.
    let st := write_output "  Setting password; will not display or log this." false st
    let password := pyStr host_pw
    match run_server_cmd_ssh env (password_cmd password) false (some true) st with
    | (.error e, st) => (.error e, st)
    | (.ok _, st) =>
      -- Add user to sudo group.
      let st := write_output "  Adding user to sudo group." false st
      match run_server_cmd_ssh env "usermod -aG sudo django_user" true none st with
      | (.error e, st) => (.error e, st)
      | (.ok _, st) =>
        -- Modify /etc/sudoers.d to allow scripted use of sudo commands.
        let st := write_output "  Modifying /etc/sudoers.d." false st
        match run_server_cmd_ssh env sudoers_cmd true none st with
        | (.error e, st) => (.error e, st)
        | (.ok _, st) =>
          -- Use the new user from this point forward.
          let st := { st with server_username := "django_user" }
          -- Verify connection.
          let st := write_output "  Ensuring connection..." false st
          match check_server_available env 10 300 st with
          | (.error e, st) => (.error e, st)
          | (.ok true, st) => (.ok (), st)
          | (.ok false, st) =>
            -- raise DSDCommandError(msg): NameError, name is undefined here
            (.error (.nameError "DSDCommandError"), st)

/-- Embeds `set_server_username()` (utils.py lines 67–107).
`do_django_user` is `os.environ.get("DO_DJANGO_USER")` (walrus-tested for
truthiness), `host_pw` is passed through to `add_server_user`. -/
def set_server_username (env : Env) (do_django_user host_pw : Option String)
    (st : St) : Except Exc Unit × St :=
  let st := write_output "Determining server username..." false st
  if truthy do_django_user then
    -- Use this custom username.
    let username := do_django_user.getD ""
    let st := { st with server_username := username }
    let st := write_output ("  username: " ++ username) false st
    (.ok (), st)
  else
    -- No custom username. Try to connect with default username.
    let st := { st with server_username := "django_user" }
    match run_server_cmd_ssh env "uptime" true none st with
    | (.ok _, st) =>
      -- Default username works, we're done here.
      let st := write_output ("  username: " ++ st.server_username) false st
      (.ok (), st)
    | (.error (.ssh .authFailed), st) =>
      -- Default non-root user doesn't exist.
      let st := { st with server_username := "root" }
      let st := write_output "  Using root for now..." false st
      match add_server_user env host_pw st with
      | (.error e, st) => (.error e, st)
      | (.ok _, st) =>
        let st := write_output ("  username: " ++ st.server_username) false st
        (.ok (), st)
    | (.error e, st) => (.error e, st)

/-- Embeds `reboot_server()` (utils.py lines 128–146): issue the reboot
command, pause 5 seconds so that polling does not race the shutdown, then
poll with the default budget; on a `False` poll the code executes
`raise DSDCommandError(...)` where the name is undefined, hence
`.nameError "DSDCommandError"`. -/
def reboot_server (env : Env) (st : St) : Except Exc Unit × St :=
  let st := write_output "  Rebooting..." false st
  match run_server_cmd_ssh env "sudo systemctl reboot" true none st with
  | (.error e, st) => (.error e, st)
  | (.ok _, st) =>
    -- Pause to let shutdown begin; polling too soon shows server available
    -- because shutdown hasn't started yet.
    let st := sleep 5 st
    match check_server_available env 10 300 st with
    | (.error e, st) => (.error e, st)
    | (.ok true, st) => (.ok (), st)
    | (.ok false, st) => (.error (.nameError "DSDCommandError"), st)

/-- Embeds `reboot_if_required()` (utils.py lines 110–126): list `/var/run`
with output hidden, search the trimmed stdout for the marker substring
`"reboot-required"`, and reboot (returning `True`) when present, else
report and return `False`. -/
def reboot_if_required (env : Env) (st : St) : Except Exc Bool × St :=
  let st := write_output "Checking if reboot required..." false st
  match run_server_cmd_ssh env "ls /var/run" false none st with
  | (.error e, st) => (.error e, st)
  | (.ok (stdout, _stderr), st) =>
    if strIn "reboot-required" stdout then
      match reboot_server env st with
      | (.error e, st) => (.error e, st)
      | (.ok _, st) => (.ok true, st)
    else
      (.ok false, write_output "  No reboot required." false st)

/-- A fresh initial state for concrete runs: identity `root`, nothing
observed yet. -/
def st0 : St :=
  { server_username := "root", log := [], console := [], trace := []
    closes := 0, sleeps := [], addUserCalls := 0 }

/-! Projection lemmas for the state transformers. -/

@[simp] theorem write_output_username (m : String) (b : Bool) (st : St) :
    (write_output m b st).server_username = st.server_username := rfl

@[simp] theorem write_output_trace (m : String) (b : Bool) (st : St) :
    (write_output m b st).trace = st.trace := rfl

@[simp] theorem write_output_closes (m : String) (b : Bool) (st : St) :
    (write_output m b st).closes = st.closes := rfl

@[simp] theorem write_output_sleeps (m : String) (b : Bool) (st : St) :
    (write_output m b st).sleeps = st.sleeps := rfl

@[simp] theorem write_output_addUserCalls (m : String) (b : Bool) (st : St) :
    (write_output m b st).addUserCalls = st.addUserCalls := rfl

@[simp] theorem write_output_log_skipped (m : String) (st : St) :
    (write_output m true st).log = st.log := rfl

@[simp] theorem sleep_username (n : Nat) (st : St) :
    (sleep n st).server_username = st.server_username := rfl

@[simp] theorem sleep_trace (n : Nat) (st : St) :
    (sleep n st).trace = st.trace := rfl

@[simp] theorem sleep_log (n : Nat) (st : St) :
    (sleep n st).log = st.log := rfl

@[simp] theorem sleep_addUserCalls (n : Nat) (st : St) :
    (sleep n st).addUserCalls = st.addUserCalls := rfl

@[simp] theorem sleep_sleeps (n : Nat) (st : St) :
    (sleep n st).sleeps = st.sleeps ++ [n] := rfl

/-- The result component of the Remote Executor: the oracle's answer with
the streams trimmed, or the transport error wrapped as a raised exception. -/
theorem run_fst (env : Env) (cmd : String) (so : Bool) (sk : Option Bool) (st : St) :
    (run_server_cmd_ssh env cmd so sk st).1 =
      (match env st.trace.length st.server_username cmd with
       | .ok p => .ok (pyStrip p.1, pyStrip p.2)
       | .error e => .error (.ssh e)) := by
  unfold run_server_cmd_ssh
  cases h : env st.trace.length st.server_username cmd with
  | error e => cases so <;> simp [h, write_output]
  | ok p =>
    obtain ⟨o, r⟩ := p
    cases so <;> simp [h, write_output] <;> (try split_ifs <;> simp [write_output])

theorem run_username (env : Env) (cmd : String) (so : Bool) (sk : Option Bool) (st : St) :
    (run_server_cmd_ssh env cmd so sk st).2.server_username = st.server_username := by
  unfold run_server_cmd_ssh
  cases h : env st.trace.length st.server_username cmd with
  | error e => cases so <;> simp [h, write_output]
  | ok p =>
    obtain ⟨o, r⟩ := p
    cases so <;> simp [h, write_output] <;> (try split_ifs <;> simp [write_output])

theorem run_trace (env : Env) (cmd : String) (so : Bool) (sk : Option Bool) (st : St) :
    (run_server_cmd_ssh env cmd so sk st).2.trace =
      st.trace ++ [(st.server_username, cmd)] := by
  unfold run_server_cmd_ssh
  cases h : env st.trace.length st.server_username cmd with
  | error e => cases so <;> simp [h, write_output]
  | ok p =>
    obtain ⟨o, r⟩ := p
    cases so <;> simp [h, write_output] <;> (try split_ifs <;> simp [write_output])

theorem run_closes (env : Env) (cmd : String) (so : Bool) (sk : Option Bool) (st : St) :
    (run_server_cmd_ssh env cmd so sk st).2.closes = st.closes + 1 := by
  unfold run_server_cmd_ssh
  cases h : env st.trace.length st.server_username cmd with
  | error e => cases so <;> simp [h, write_output]
  | ok p =>
    obtain ⟨o, r⟩ := p
    cases so <;> simp [h, write_output] <;> (try split_ifs <;> simp [write_output])

theorem run_sleeps (env : Env) (cmd : String) (so : Bool) (sk : Option Bool) (st : St) :
    (run_server_cmd_ssh env cmd so sk st).2.sleeps = st.sleeps := by
  unfold run_server_cmd_ssh
  cases h : env st.trace.length st.server_username cmd with
  | error e => cases so <;> simp [h, write_output]
  | ok p =>
    obtain ⟨o, r⟩ := p
    cases so <;> simp [h, write_output] <;> (try split_ifs <;> simp [write_output])

theorem run_addUserCalls (env : Env) (cmd : String) (so : Bool) (sk : Option Bool) (st : St) :
    (run_server_cmd_ssh env cmd so sk st).2.addUserCalls = st.addUserCalls := by
  unfold run_server_cmd_ssh
  cases h : env st.trace.length st.server_username cmd with
  | error e => cases so <;> simp [h, write_output]
  | ok p =>
    obtain ⟨o, r⟩ := p
    cases so <;> simp [h, write_output] <;> (try split_ifs <;> simp [write_output])

/-- A fully suppressed invocation (`skip_logging=True`) adds nothing to the
persisted log, on any outcome. -/
theorem run_log_suppressed (env : Env) (cmd : String) (so : Bool) (st : St) :
    (run_server_cmd_ssh env cmd so (some true) st).2.log = st.log := by
  unfold run_server_cmd_ssh
  cases h : env st.trace.length st.server_username cmd with
  | error e => cases so <;> simp [h, write_output]
  | ok p =>
    obtain ⟨o, r⟩ := p
    cases so <;> simp [h, write_output] <;> (try split_ifs <;> simp [write_output])

/-! Lemmas about the polling loop of `check_server_available`. -/

theorem csa_username (env : Env) (d m n : Nat) (st : St) :
    (csaLoop env d m n st).2.server_username = st.server_username := by
  induction n generalizing st with
  | zero => simp [csaLoop]
  | succ k ih =>
    rw [csaLoop]
    rcases hr : run_server_cmd_ssh env "uptime" true none st with ⟨r, st1⟩
    have hu : st1.server_username = st.server_username := by
      have h2 := run_username env "uptime" true none st
      rw [hr] at h2
      exact h2
    rcases r with e | v
    · rcases e with s | nm
      · rcases s with _ | _ | msg
        · simpa [ih] using hu
        · simpa using hu
        · simpa using hu
      · simpa using hu
    · simpa using hu

theorem csa_addUserCalls (env : Env) (d m n : Nat) (st : St) :
    (csaLoop env d m n st).2.addUserCalls = st.addUserCalls := by
  induction n generalizing st with
  | zero => simp [csaLoop]
  | succ k ih =>
    rw [csaLoop]
    rcases hr : run_server_cmd_ssh env "uptime" true none st with ⟨r, st1⟩
    have hu : st1.addUserCalls = st.addUserCalls := by
      have h2 := run_addUserCalls env "uptime" true none st
      rw [hr] at h2
      exact h2
    rcases r with e | v
    · rcases e with s | nm
      · rcases s with _ | _ | msg
        · simpa [ih] using hu
        · simpa using hu
        · simpa using hu
      · simpa using hu
    · simpa using hu

/-- Proof-side abbreviation for the state after one failed (timed-out)
polling attempt: the attempt itself, the two log lines, and the sleep. -/
def csaNext (env : Env) (d m k : Nat) (st : St) : St :=
  sleep d (write_output
    ("    Waiting " ++ toString d ++ "s for server to become available.") false
    (write_output ("  Attempt " ++ toString (m - (k + 1) + 1) ++ "/" ++
      toString m ++ " failed.") false
      (run_server_cmd_ssh env "uptime" true none st).2))

@[simp] theorem csaNext_trace_len (env : Env) (d m k : Nat) (st : St) :
    (csaNext env d m k st).trace.length = st.trace.length + 1 := by
  simp [csaNext, run_trace]

@[simp] theorem csaNext_username (env : Env) (d m k : Nat) (st : St) :
    (csaNext env d m k st).server_username = st.server_username := by
  simp [csaNext, run_username]

@[simp] theorem csaNext_sleeps (env : Env) (d m k : Nat) (st : St) :
    (csaNext env d m k st).sleeps = st.sleeps ++ [d] := by
  simp [csaNext, run_sleeps]

@[simp] theorem csaNext_addUserCalls (env : Env) (d m k : Nat) (st : St) :
    (csaNext env d m k st).addUserCalls = st.addUserCalls := by
  simp [csaNext, run_addUserCalls]

/-- One loop step when the probe times out: log, sleep, recurse. -/
theorem csa_step_timeout (env : Env) (d m k : Nat) (st : St)
    (h0 : env st.trace.length st.server_username "uptime" = .error .timeout) :
    csaLoop env d m (k + 1) st = csaLoop env d m k (csaNext env d m k st) := by
  rw [csaLoop]
  rcases hr : run_server_cmd_ssh env "uptime" true none st with ⟨r, st1⟩
  have hfst := run_fst env "uptime" true none st
  rw [hr, h0] at hfst
  simp only [] at hfst
  subst hfst
  simp only [csaNext, hr]

/-- One loop step when the probe succeeds: return `True` at once. -/
theorem csa_step_ok (env : Env) (d m k : Nat) (st : St) (p : String × String)
    (h0 : env st.trace.length st.server_username "uptime" = .ok p) :
    csaLoop env d m (k + 1) st =
      (.ok true, write_output "  Server is available." false
        (run_server_cmd_ssh env "uptime" true none st).2) := by
  rw [csaLoop]
  rcases hr : run_server_cmd_ssh env "uptime" true none st with ⟨r, st1⟩
  have hfst := run_fst env "uptime" true none st
  rw [hr, h0] at hfst
  simp only [] at hfst
  subst hfst
  rfl

/-- One loop step when the probe fails with anything but a timeout: the
exception propagates unmodified. -/
theorem csa_step_err (env : Env) (d m k : Nat) (st : St) (e : SSHErr)
    (hne : e ≠ SSHErr.timeout)
    (h0 : env st.trace.length st.server_username "uptime" = .error e) :
    csaLoop env d m (k + 1) st =
      (.error (.ssh e), (run_server_cmd_ssh env "uptime" true none st).2) := by
  rw [csaLoop]
  rcases hr : run_server_cmd_ssh env "uptime" true none st with ⟨r, st1⟩
  have hfst := run_fst env "uptime" true none st
  rw [hr, h0] at hfst
  simp only [] at hfst
  subst hfst
  rcases e with _ | _ | msg
  · exact absurd rfl hne
  · rfl
  · rfl

theorem csa_trace_le (env : Env) (d m n : Nat) (st : St) :
    (csaLoop env d m n st).2.trace.length ≤ st.trace.length + n := by
  induction n generalizing st with
  | zero => simp [csaLoop]
  | succ k ih =>
    rw [csaLoop]
    rcases hr : run_server_cmd_ssh env "uptime" true none st with ⟨r, st1⟩
    have hlen : st1.trace.length = st.trace.length + 1 := by
      have h2 := run_trace env "uptime" true none st
      rw [hr] at h2
      simp only [] at h2
      simp [h2]
    rcases r with e | v
    · rcases e with s | nm
      · rcases s with _ | _ | msg
        · show (csaLoop env d m k (sleep d (write_output
              ("    Waiting " ++ toString d ++ "s for server to become available.") false
              (write_output ("  Attempt " ++ toString (m - (k + 1) + 1) ++ "/" ++
                toString m ++ " failed.") false st1)))).2.trace.length ≤
              st.trace.length + (k + 1)
          have h3 := ih (sleep d (write_output
            ("    Waiting " ++ toString d ++ "s for server to become available.") false
            (write_output ("  Attempt " ++ toString (m - (k + 1) + 1) ++ "/" ++
              toString m ++ " failed.") false st1)))
          rw [sleep_trace, write_output_trace, write_output_trace, hlen] at h3
          omega
        · show st1.trace.length ≤ st.trace.length + (k + 1)
          omega
        · show st1.trace.length ≤ st.trace.length + (k + 1)
          omega
      · show st1.trace.length ≤ st.trace.length + (k + 1)
        omega
    · show (write_output "  Server is available." false st1).trace.length ≤
        st.trace.length + (k + 1)
      rw [write_output_trace, hlen]
      omega

/-- If every attempt in the budget times out, the loop returns `False`
(never raising), sleeps `delay` once per attempt, performs exactly one
transport attempt per iteration, and leaves the identity untouched. -/
theorem csa_all_timeout (env : Env) (d m : Nat) : ∀ (n : Nat) (st : St),
    (∀ k, k < n → env (st.trace.length + k) st.server_username "uptime" =
      .error .timeout) →
    (csaLoop env d m n st).1 = .ok false ∧
    (csaLoop env d m n st).2.sleeps = st.sleeps ++ List.replicate n d ∧
    (csaLoop env d m n st).2.server_username = st.server_username ∧
    (csaLoop env d m n st).2.trace.length = st.trace.length + n := by
  intro n
  induction n with
  | zero => intro st h; simp [csaLoop]
  | succ k ih =>
    intro st h
    have h0 : env st.trace.length st.server_username "uptime" = .error .timeout := by
      have h1 := h 0 (Nat.succ_pos k)
      simpa using h1
    rw [csa_step_timeout env d m k st h0]
    have hstep := ih (csaNext env d m k st) (by
      intro j hj
      rw [csaNext_trace_len, csaNext_username]
      have h2 := h (j + 1) (by omega)
      have h3 : st.trace.length + 1 + j = st.trace.length + (j + 1) := by omega
      rw [h3]
      exact h2)
    obtain ⟨c1, c2, c3, c4⟩ := hstep
    refine ⟨c1, ?_, ?_, ?_⟩
    · rw [c2, csaNext_sleeps]
      simp [List.replicate_succ]
    · rw [c3, csaNext_username]
    · rw [c4, csaNext_trace_len]
      omega

/-- If the first `j` attempts time out and attempt `j` (0-based, within the
budget) succeeds, the loop returns `True` right there, with exactly `j + 1`
transport attempts performed. -/
theorem csa_success_at (env : Env) (d m : Nat) : ∀ (n : Nat) (st : St)
    (j : Nat) (p : String × String), j < n →
    (∀ k, k < j → env (st.trace.length + k) st.server_username "uptime" =
      .error .timeout) →
    env (st.trace.length + j) st.server_username "uptime" = .ok p →
    (csaLoop env d m n st).1 = .ok true ∧
    (csaLoop env d m n st).2.trace.length = st.trace.length + j + 1 := by
  intro n
  induction n with
  | zero => intro st j p hj _ _; omega
  | succ k ih =>
    intro st j p hj hpre hok
    match j with
    | 0 =>
      have h0 : env st.trace.length st.server_username "uptime" = .ok p := by
        simpa using hok
      rw [csa_step_ok env d m k st p h0]
      refine ⟨rfl, ?_⟩
      have h2 := run_trace env "uptime" true none st
      simp [h2]
    | j' + 1 =>
      have h0 : env st.trace.length st.server_username "uptime" = .error .timeout := by
        have h1 := hpre 0 (Nat.succ_pos j')
        simpa using h1
      rw [csa_step_timeout env d m k st h0]
      have hstep := ih (csaNext env d m k st) j' p (by omega)
        (by
          intro i hi
          rw [csaNext_trace_len, csaNext_username]
          have h2 := hpre (i + 1) (by omega)
          have h3 : st.trace.length + 1 + i = st.trace.length + (i + 1) := by omega
          rw [h3]
          exact h2)
        (by
          rw [csaNext_trace_len, csaNext_username]
          have h3 : st.trace.length + 1 + j' = st.trace.length + (j' + 1) := by omega
          rw [h3]
          exact hok)
      obtain ⟨c1, c2⟩ := hstep
      refine ⟨c1, ?_⟩
      rw [c2, csaNext_trace_len]
      omega

/-- If the first `j` attempts time out and attempt `j` (within the budget)
fails with anything but a timeout, that exception propagates unmodified out
of the loop. -/
theorem csa_propagate (env : Env) (d m : Nat) : ∀ (n : Nat) (st : St)
    (j : Nat) (e : SSHErr), j < n → e ≠ SSHErr.timeout →
    (∀ k, k < j → env (st.trace.length + k) st.server_username "uptime" =
      .error .timeout) →
    env (st.trace.length + j) st.server_username "uptime" = .error e →
    (csaLoop env d m n st).1 = .error (.ssh e) := by
  intro n
  induction n with
  | zero => intro st j e hj _ _ _; omega
  | succ k ih =>
    intro st j e hj hne hpre herr
    match j with
    | 0 =>
      have h0 : env st.trace.length st.server_username "uptime" = .error e := by
        simpa using herr
      rw [csa_step_err env d m k st e hne h0]
    | j' + 1 =>
      have h0 : env st.trace.length st.server_username "uptime" = .error .timeout := by
        have h1 := hpre 0 (Nat.succ_pos j')
        simpa using h1
      rw [csa_step_timeout env d m k st h0]
      exact ih (csaNext env d m k st) j' e (by omega) hne
        (by
          intro i hi
          rw [csaNext_trace_len, csaNext_username]
          have h2 := hpre (i + 1) (by omega)
          have h3 : st.trace.length + 1 + i = st.trace.length + (i + 1) := by omega
          rw [h3]
          exact h2)
        (by
          rw [csaNext_trace_len, csaNext_username]
          have h3 : st.trace.length + 1 + j' = st.trace.length + (j' + 1) := by omega
          rw [h3]
          exact herr)

/-! Claim theorems for the Availability Poller. -/

/-- C1: for every (delay, timeout) with 0 < delay ≤ timeout, the
Availability Poller performs at most `timeout / delay` (floor) transport
attempts, and if the first success occurs at attempt `j` within the budget
it returns `True` right there with exactly `j + 1` attempts performed —
the remaining budget is never used. -/
theorem availability_poller_budget (env : Env) (delay timeout : Nat) (st : St)
    (hd : 0 < delay) (hdt : delay ≤ timeout) :
    ((check_server_available env delay timeout st).2.trace.length ≤
      st.trace.length + timeout / delay) ∧
    (∀ j p, j < timeout / delay →
      (∀ k, k < j → env (st.trace.length + k) st.server_username "uptime" =
        .error .timeout) →
      env (st.trace.length + j) st.server_username "uptime" = .ok p →
      (check_server_available env delay timeout st).1 = .ok true ∧
      (check_server_available env delay timeout st).2.trace.length =
        st.trace.length + j + 1) := by
  constructor
  · have h := csa_trace_le env delay (timeout / delay) (timeout / delay)
      (write_output "Checking if server is responding..." false st)
    simpa [check_server_available] using h
  · intro j p hj hpre hok
    have h := csa_success_at env delay (timeout / delay) (timeout / delay)
      (write_output "Checking if server is responding..." false st) j p hj
      (by simpa using hpre) (by simpa using hok)
    constructor
    · exact h.1
    · have h2 := h.2
      simpa [check_server_available] using h2

/-- Oracle that answers every probe successfully. -/
def envAllOk : Env := fun _ _ _ => .ok ("up 1 day", "")

/-- Witness for C1: with `delay = 10`, `timeout = 300` and an immediately
reachable host, the poller returns `True` after exactly one attempt. -/
theorem availability_poller_budget_witness :
    (check_server_available envAllOk 10 300 st0).1 = .ok true ∧
    (check_server_available envAllOk 10 300 st0).2.trace.length = 1 := by
  have h := (availability_poller_budget envAllOk 10 300 st0 (by decide)
    (by decide)).2 0 ("up 1 day", "") (by decide)
    (fun k hk => absurd hk (by omega)) rfl
  exact ⟨h.1, by simpa using h.2⟩

/-- C2: in the Availability Poller, only timeout-class (Unreachable) probe
failures are caught — each one is followed by a recorded `delay`-second
sleep and a retry; a failure of any other kind at any attempt propagates
unmodified; and when every attempt in the budget times out the poller
returns `False` rather than raising, having slept `delay` once per
attempt. -/
theorem availability_poller_error_policy (env : Env) (delay timeout : Nat)
    (st : St) :
    (∀ j e, j < timeout / delay → e ≠ SSHErr.timeout →
      (∀ k, k < j → env (st.trace.length + k) st.server_username "uptime" =
        .error .timeout) →
      env (st.trace.length + j) st.server_username "uptime" = .error e →
      (check_server_available env delay timeout st).1 = .error (.ssh e)) ∧
    ((∀ k, k < timeout / delay →
        env (st.trace.length + k) st.server_username "uptime" =
          .error .timeout) →
      (check_server_available env delay timeout st).1 = .ok false ∧
      (check_server_available env delay timeout st).2.sleeps =
        st.sleeps ++ List.replicate (timeout / delay) delay) := by
  constructor
  · intro j e hj hne hpre herr
    exact csa_propagate env delay (timeout / delay) (timeout / delay)
      (write_output "Checking if server is responding..." false st) j e hj hne
      (by simpa using hpre) (by simpa using herr)
  · intro hall
    have h := csa_all_timeout env delay (timeout / delay) (timeout / delay)
      (write_output "Checking if server is responding..." false st)
      (by simpa using hall)
    exact ⟨h.1, by simpa [check_server_available] using h.2.1⟩

/-- Oracle whose first probe times out and whose second probe is rejected
for bad credentials. -/
def envAuthAt1 : Env := fun i _ _ =>
  if i = 0 then .error .timeout else .error .authFailed

/-- Witness for C2: with the oracle above (budget 3 = 30/10), the timeout
at attempt 0 is retried and the authentication failure at attempt 1
propagates unmodified. -/
theorem availability_poller_error_policy_witness :
    (check_server_available envAuthAt1 10 30 st0).1 =
      .error (.ssh .authFailed) := by
  have h := (availability_poller_error_policy envAuthAt1 10 30 st0).1 1
    .authFailed (by decide) (by decide)
    (by
      intro k hk
      have hk0 : k = 0 := by omega
      subst hk0
      rfl)
    rfl
  exact h

/-- C9: every Remote Executor call either raises (the oracle's transport
error, wrapped) or returns the pair of stripped stdout/stderr texts, and on
every exit path — success or exception — exactly one more `client.close()`
has executed. -/
theorem remote_executor_contract (env : Env) (cmd : String) (so : Bool)
    (sk : Option Bool) (st : St) :
    ((run_server_cmd_ssh env cmd so sk st).2.closes = st.closes + 1) ∧
    ((run_server_cmd_ssh env cmd so sk st).1 =
      match env st.trace.length st.server_username cmd with
      | .ok p => .ok (pyStrip p.1, pyStrip p.2)
      | .error e => .error (.ssh e)) :=
  ⟨run_closes env cmd so sk st, run_fst env cmd so sk st⟩

/-- C8: in every invocation of `configure_firewall`, the transport attempts
it adds are either the SSH-allow command alone (when that attempt raised)
or the SSH-allow command followed by the enable command — the enable
command is never issued first. -/
theorem firewall_allow_before_enable (env : Env) (st : St) :
    (configure_firewall env st).2.trace =
      st.trace ++ [(st.server_username, "sudo ufw allow OpenSSH")] ∨
    (configure_firewall env st).2.trace =
      st.trace ++ [(st.server_username, "sudo ufw allow OpenSSH"),
        (st.server_username, "sudo ufw --force enable")] := by
  simp only [configure_firewall]
  rcases h1 : run_server_cmd_ssh env "sudo ufw allow OpenSSH" true none
    (write_output "Configuring firewall..." false st) with ⟨r1, s1⟩
  have ht1 : s1.trace =
      st.trace ++ [(st.server_username, "sudo ufw allow OpenSSH")] := by
    have h := run_trace env "sudo ufw allow OpenSSH" true none
      (write_output "Configuring firewall..." false st)
    rw [h1] at h
    simpa using h
  have hu1 : s1.server_username = st.server_username := by
    have h := run_username env "sudo ufw allow OpenSSH" true none
      (write_output "Configuring firewall..." false st)
    rw [h1] at h
    simpa using h
  rcases r1 with e1 | v1
  · left
    simpa using ht1
  · simp only []
    rcases h2 : run_server_cmd_ssh env "sudo ufw --force enable" true none s1
      with ⟨r2, s2⟩
    have ht2 : s2.trace =
        s1.trace ++ [(s1.server_username, "sudo ufw --force enable")] := by
      have h := run_trace env "sudo ufw --force enable" true none s1
      rw [h2] at h
      simpa using h
    have hgoal : s2.trace =
        st.trace ++ [(st.server_username, "sudo ufw allow OpenSSH"),
          (st.server_username, "sudo ufw --force enable")] := by
      rw [ht2, ht1, hu1]
      simp
    rcases r2 with e2 | v2
    · right
      simpa using hgoal
    · right
      simpa using hgoal

/-- C7: the credential-setting invocation of `add_server_user` — the
`chpasswd` command run with `show_output=False, skip_logging=True` — adds
nothing at all to the persisted log (so neither its command text nor its
output streams are logged), while its returned (stdout, stderr) result is
identical to what an unsuppressed invocation would return. -/
theorem password_cmd_suppressed (env : Env) (pw : String) (st : St) :
    ((run_server_cmd_ssh env (password_cmd pw) false (some true) st).2.log =
      st.log) ∧
    ((run_server_cmd_ssh env (password_cmd pw) false (some true) st).1 =
      (run_server_cmd_ssh env (password_cmd pw) true none st).1) := by
  refine ⟨run_log_suppressed env (password_cmd pw) false st, ?_⟩
  rw [run_fst env (password_cmd pw) false (some true) st,
    run_fst env (password_cmd pw) true none st]

/-- C5: with a truthy `DO_DJANGO_USER` override, the Identity Resolver
issues no transport attempt at all, succeeds, sets the current identity to
the override, and doing it again yields the same identity. -/
theorem identity_override (env : Env) (dodo host_pw : Option String)
    (st : St) (u : String) (hd : dodo = some u) (hu : u ≠ "") :
    (set_server_username env dodo host_pw st).1 = .ok () ∧
    (set_server_username env dodo host_pw st).2.trace = st.trace ∧
    (set_server_username env dodo host_pw st).2.server_username = u ∧
    (set_server_username env dodo host_pw
      (set_server_username env dodo host_pw st).2).2.server_username = u := by
  subst hd
  have ht : truthy (some u) = true := by simpa [truthy] using hu
  refine ⟨?_, ?_, ?_, ?_⟩ <;> simp [set_server_username, ht, write_output]

/-- Witness for C5: override `ops` is adopted without any probing, twice. -/
theorem identity_override_witness :
    (set_server_username envAllOk (some "ops") none st0).1 = .ok () ∧
    (set_server_username envAllOk (some "ops") none st0).2.trace = st0.trace ∧
    (set_server_username envAllOk (some "ops") none st0).2.server_username =
      "ops" ∧
    (set_server_username envAllOk (some "ops") none
      (set_server_username envAllOk (some "ops") none
        st0).2).2.server_username = "ops" :=
  identity_override envAllOk (some "ops") none st0 "ops" rfl (by decide)

/-! Facts about `check_server_available` lifted from the loop lemmas. -/

theorem check_username (env : Env) (d t : Nat) (st : St) :
    (check_server_available env d t st).2.server_username =
      st.server_username := by
  simpa [check_server_available] using
    csa_username env d (t / d) (t / d)
      (write_output "Checking if server is responding..." false st)

theorem check_addUserCalls (env : Env) (d t : Nat) (st : St) :
    (check_server_available env d t st).2.addUserCalls = st.addUserCalls := by
  simpa [check_server_available] using
    csa_addUserCalls env d (t / d) (t / d)
      (write_output "Checking if server is responding..." false st)

theorem check_all_timeout (env : Env) (d t : Nat) (st : St)
    (h : ∀ k, k < t / d →
      env (st.trace.length + k) st.server_username "uptime" =
        .error .timeout) :
    (check_server_available env d t st).1 = .ok false := by
  have h2 := csa_all_timeout env d (t / d) (t / d)
    (write_output "Checking if server is responding..." false st)
    (by simpa using h)
  exact h2.1

/-! Facts about a single Remote Executor call, packaged for chaining. -/

theorem run_ok_facts (env : Env) (c : String) (so : Bool) (sk : Option Bool)
    (st : St) (r : Except Exc (String × String)) (s : St)
    (p : String × String)
    (hr : run_server_cmd_ssh env c so sk st = (r, s))
    (henv : env st.trace.length st.server_username c = .ok p) :
    r = .ok (pyStrip p.1, pyStrip p.2) ∧
    s.trace.length = st.trace.length + 1 ∧
    s.server_username = st.server_username ∧
    s.addUserCalls = st.addUserCalls := by
  refine ⟨?_, ?_, ?_, ?_⟩
  · have h := run_fst env c so sk st
    rw [hr, henv] at h
    simpa using h
  · have h := run_trace env c so sk st
    rw [hr] at h
    simp only [] at h
    simp [h]
  · have h := run_username env c so sk st
    rw [hr] at h
    simpa using h
  · have h := run_addUserCalls env c so sk st
    rw [hr] at h
    simpa using h

theorem run_err_facts (env : Env) (c : String) (so : Bool) (sk : Option Bool)
    (st : St) (r : Except Exc (String × String)) (s : St) (e : SSHErr)
    (hr : run_server_cmd_ssh env c so sk st = (r, s))
    (henv : env st.trace.length st.server_username c = .error e) :
    r = .error (.ssh e) ∧
    s.addUserCalls = st.addUserCalls := by
  refine ⟨?_, ?_⟩
  · have h := run_fst env c so sk st
    rw [hr, henv] at h
    simpa using h
  · have h := run_addUserCalls env c so sk st
    rw [hr] at h
    simpa using h

/-- Invariants of `add_server_user` on every path: the invocation counter
goes up by exactly one, and a successful return implies the current
identity is the provisioned non-root account. -/
theorem add_facts (env : Env) (host_pw : Option String) (st : St) :
    (add_server_user env host_pw st).2.addUserCalls = st.addUserCalls + 1 ∧
    ((add_server_user env host_pw st).1 = .ok () →
      (add_server_user env host_pw st).2.server_username = "django_user") := by
  simp only [add_server_user]
  rcases hA : run_server_cmd_ssh env "useradd -m django_user" true none
    (write_output "Adding non-root user: django_user" false
      { st with addUserCalls := st.addUserCalls + 1 }) with ⟨r1, s1⟩
  have ha1 : s1.addUserCalls = st.addUserCalls + 1 := by
    have h := run_addUserCalls env "useradd -m django_user" true none
      (write_output "Adding non-root user: django_user" false
        { st with addUserCalls := st.addUserCalls + 1 })
    rw [hA] at h
    simpa using h
  rcases r1 with e1 | v1
  · exact ⟨by simpa using ha1, by intro h; simp at h⟩
  · simp only []
    rcases hB : run_server_cmd_ssh env (password_cmd (pyStr host_pw)) false
      (some true)
      (write_output "  Setting password; will not display or log this."
        false s1) with ⟨r2, s2⟩
    have ha2 : s2.addUserCalls = st.addUserCalls + 1 := by
      have h := run_addUserCalls env (password_cmd (pyStr host_pw)) false
        (some true)
        (write_output "  Setting password; will not display or log this."
          false s1)
      rw [hB] at h
      simp only [] at h
      simp [h, ha1]
    rcases r2 with e2 | v2
    · exact ⟨by simpa using ha2, by intro h; simp at h⟩
    · simp only []
      rcases hC : run_server_cmd_ssh env "usermod -aG sudo django_user" true
        none (write_output "  Adding user to sudo group." false s2)
        with ⟨r3, s3⟩
      have ha3 : s3.addUserCalls = st.addUserCalls + 1 := by
        have h := run_addUserCalls env "usermod -aG sudo django_user" true
          none (write_output "  Adding user to sudo group." false s2)
        rw [hC] at h
        simp only [] at h
        simp [h, ha2]
      rcases r3 with e3 | v3
      · exact ⟨by simpa using ha3, by intro h; simp at h⟩
      · simp only []
        rcases hD : run_server_cmd_ssh env sudoers_cmd true none
          (write_output "  Modifying /etc/sudoers.d." false s3) with ⟨r4, s4⟩
        have ha4 : s4.addUserCalls = st.addUserCalls + 1 := by
          have h := run_addUserCalls env sudoers_cmd true none
            (write_output "  Modifying /etc/sudoers.d." false s3)
          rw [hD] at h
          simp only [] at h
          simp [h, ha3]
        rcases r4 with e4 | v4
        · exact ⟨by simpa using ha4, by intro h; simp at h⟩
        · simp only []
          rcases hE : check_server_available env 10 300
            (write_output "  Ensuring connection..." false
              { s4 with server_username := "django_user" }) with ⟨r5, s5⟩
          have ha5 : s5.addUserCalls = st.addUserCalls + 1 := by
            have h := check_addUserCalls env 10 300
              (write_output "  Ensuring connection..." false
                { s4 with server_username := "django_user" })
            rw [hE] at h
            simp only [] at h
            simp [h, ha4]
          have hu5 : s5.server_username = "django_user" := by
            have h := check_username env 10 300
              (write_output "  Ensuring connection..." false
                { s4 with server_username := "django_user" })
            rw [hE] at h
            simpa using h
          rcases r5 with e5 | b5
          · exact ⟨by simpa using ha5, by intro h; simp at h⟩
          · cases b5
            · exact ⟨by simpa using ha5, by intro h; simp at h⟩
            · exact ⟨by simpa using ha5, fun _ => by simpa using hu5⟩

/-- C3: with no override, when the probe under the provisioned identity
`django_user` is rejected with AuthenticationFailed, `add_server_user` runs
exactly once and, if it completes successfully, the current identity is
`django_user`; when the probe fails any other way (e.g. Unreachable), that
exception propagates unmodified and no provisioning happens. -/
theorem identity_resolver_auth_signal (env : Env)
    (dodo host_pw : Option String) (st : St) (hno : truthy dodo = false) :
    ((env st.trace.length "django_user" "uptime" = .error .authFailed) →
      (set_server_username env dodo host_pw st).2.addUserCalls =
        st.addUserCalls + 1 ∧
      ((set_server_username env dodo host_pw st).1 = .ok () →
        (set_server_username env dodo host_pw st).2.server_username =
          "django_user")) ∧
    (∀ e, e ≠ SSHErr.authFailed →
      env st.trace.length "django_user" "uptime" = .error e →
      (set_server_username env dodo host_pw st).1 = .error (.ssh e) ∧
      (set_server_username env dodo host_pw st).2.addUserCalls =
        st.addUserCalls) := by
  simp only [set_server_username, hno, Bool.false_eq_true, if_false]
  rcases hp : run_server_cmd_ssh env "uptime" true none
    { write_output "Determining server username..." false st with
      server_username := "django_user" } with ⟨rp, sp⟩
  constructor
  · intro hAuth
    have hk := run_err_facts env "uptime" true none
      { write_output "Determining server username..." false st with
        server_username := "django_user" } rp sp .authFailed hp
      (by simpa using hAuth)
    obtain ⟨hrp, hap⟩ := hk
    simp only [] at hap
    subst hrp
    simp only []
    rcases hadd : add_server_user env host_pw
      (write_output "  Using root for now..." false
        { sp with server_username := "root" }) with ⟨ra, sa⟩
    have hfacts := add_facts env host_pw
      (write_output "  Using root for now..." false
        { sp with server_username := "root" })
    rw [hadd] at hfacts
    obtain ⟨hfa, hfu⟩ := hfacts
    have hcount : sa.addUserCalls = st.addUserCalls + 1 := by
      simp at hfa
      simp [hfa, hap]
    rcases ra with ea | va
    · exact ⟨by simpa using hcount, by intro h; simp at h⟩
    · refine ⟨by simpa using hcount, ?_⟩
      intro _
      have hres := hfu rfl
      simpa using hres
  · intro e hne herr
    have hk := run_err_facts env "uptime" true none
      { write_output "Determining server username..." false st with
        server_username := "django_user" } rp sp e hp (by simpa using herr)
    obtain ⟨hrp, hap⟩ := hk
    simp only [] at hap
    subst hrp
    rcases e with _ | _ | msg
    · exact ⟨by simp, by simpa using hap⟩
    · exact absurd rfl hne
    · exact ⟨by simp, by simpa using hap⟩

/-- Oracle for a fresh host: the non-root probe is rejected for bad
credentials (the account does not exist yet); everything else succeeds. -/
def envC3 : Env := fun i _ _ =>
  if i = 0 then .error .authFailed else .ok ("ok", "")

/-- Witness for C3: on a fresh host with no override, provisioning runs
once, the whole resolution succeeds, and the identity ends as
`django_user`. -/
theorem identity_resolver_auth_signal_witness :
    (set_server_username envC3 none none st0).2.addUserCalls = 1 ∧
    (set_server_username envC3 none none st0).1 = .ok () ∧
    (set_server_username envC3 none none st0).2.server_username =
      "django_user" := by
  have h := (identity_resolver_auth_signal envC3 none none st0 (by decide)).1
    rfl
  exact ⟨by simpa [st0] using h.1, rfl, h.2 rfl⟩

/-- C10: when the four provisioning commands succeed and every probe of the
verification poll times out, `add_server_user` raises (the `NameError`
produced by the undefined `DSDCommandError`) while the current identity is
left switched to `django_user` — no rollback to the administrative
identity happens on this error exit. -/
theorem provisioning_failure_keeps_identity (env : Env)
    (host_pw : Option String) (st : St) (p1 p2 p3 p4 : String × String)
    (h1 : env st.trace.length st.server_username "useradd -m django_user" =
      .ok p1)
    (h2 : env (st.trace.length + 1) st.server_username
      (password_cmd (pyStr host_pw)) = .ok p2)
    (h3 : env (st.trace.length + 2) st.server_username
      "usermod -aG sudo django_user" = .ok p3)
    (h4 : env (st.trace.length + 3) st.server_username sudoers_cmd = .ok p4)
    (hfail : ∀ k, k < 30 →
      env (st.trace.length + 4 + k) "django_user" "uptime" =
        .error .timeout) :
    (add_server_user env host_pw st).1 =
      .error (.nameError "DSDCommandError") ∧
    (add_server_user env host_pw st).2.server_username = "django_user" := by
  simp only [add_server_user]
  rcases hA : run_server_cmd_ssh env "useradd -m django_user" true none
    (write_output "Adding non-root user: django_user" false
      { st with addUserCalls := st.addUserCalls + 1 }) with ⟨r1, s1⟩
  have k1 := run_ok_facts env "useradd -m django_user" true none
    (write_output "Adding non-root user: django_user" false
      { st with addUserCalls := st.addUserCalls + 1 }) r1 s1 p1 hA
    (by simpa using h1)
  obtain ⟨hr1, htr1, hun1, -⟩ := k1
  simp at htr1 hun1
  subst hr1
  simp only []
  rcases hB : run_server_cmd_ssh env (password_cmd (pyStr host_pw)) false
    (some true)
    (write_output "  Setting password; will not display or log this." false
      s1) with ⟨r2, s2⟩
  have k2 := run_ok_facts env (password_cmd (pyStr host_pw)) false
    (some true)
    (write_output "  Setting password; will not display or log this." false
      s1) r2 s2 p2 hB (by simpa [htr1, hun1] using h2)
  obtain ⟨hr2, htr2, hun2, -⟩ := k2
  simp [htr1] at htr2
  simp [hun1] at hun2
  subst hr2
  simp only []
  rcases hC : run_server_cmd_ssh env "usermod -aG sudo django_user" true
    none (write_output "  Adding user to sudo group." false s2) with ⟨r3, s3⟩
  have k3 := run_ok_facts env "usermod -aG sudo django_user" true none
    (write_output "  Adding user to sudo group." false s2) r3 s3 p3 hC
    (by
      simp only [write_output_trace, write_output_username]
      rw [htr2, hun2]
      convert h3 using 3
      all_goals omega)
  obtain ⟨hr3, htr3, hun3, -⟩ := k3
  simp [htr2] at htr3
  simp [hun2] at hun3
  subst hr3
  simp only []
  rcases hD : run_server_cmd_ssh env sudoers_cmd true none
    (write_output "  Modifying /etc/sudoers.d." false s3) with ⟨r4, s4⟩
  have k4 := run_ok_facts env sudoers_cmd true none
    (write_output "  Modifying /etc/sudoers.d." false s3) r4 s4 p4 hD
    (by
      simp only [write_output_trace, write_output_username]
      rw [htr3, hun3]
      convert h4 using 3
      all_goals omega)
  obtain ⟨hr4, htr4, hun4, -⟩ := k4
  simp [htr3] at htr4
  simp [hun3] at hun4
  subst hr4
  simp only []
  rcases hE : check_server_available env 10 300
    (write_output "  Ensuring connection..." false
      { s4 with server_username := "django_user" }) with ⟨r5, s5⟩
  have hcheck := check_all_timeout env 10 300
    (write_output "  Ensuring connection..." false
      { s4 with server_username := "django_user" })
    (by
      intro k hk
      simp only [write_output_trace, write_output_username]
      have hk30 : k < 30 := by omega
      have h5 := hfail k hk30
      simp [htr4]
      convert h5 using 3
      all_goals omega)
  rw [hE] at hcheck
  simp only [] at hcheck
  subst hcheck
  have hu5 : s5.server_username = "django_user" := by
    have h := check_username env 10 300
      (write_output "  Ensuring connection..." false
        { s4 with server_username := "django_user" })
    rw [hE] at h
    simpa using h
  exact ⟨by simp, by simpa using hu5⟩

/-- Oracle where commands run as root succeed and every probe under the
new `django_user` identity times out. -/
def envProvisionFail : Env := fun _ u _ =>
  if u = "root" then .ok ("", "") else .error .timeout

/-- Witness for C10: concrete run where provisioning succeeds but the
verification poll exhausts its budget. -/
theorem provisioning_failure_keeps_identity_witness :
    (add_server_user envProvisionFail none st0).1 =
      .error (.nameError "DSDCommandError") ∧
    (add_server_user envProvisionFail none st0).2.server_username =
      "django_user" :=
  provisioning_failure_keeps_identity envProvisionFail none st0
    ("", "") ("", "") ("", "") ("", "") rfl rfl rfl rfl (fun k hk => rfl)

/-- Host with no pending-reboot marker in `/var/run`. -/
def envNoReboot : Env := fun _ _ c =>
  if c = "ls /var/run" then .ok ("lock\nsystemd", "") else .ok ("", "")

/-- Host with the pending-reboot marker that comes back up right away. -/
def envRebootOk : Env := fun _ _ c =>
  if c = "ls /var/run" then .ok ("reboot-required\nlock", "")
  else .ok ("up 1 min", "")

/-- Host with the pending-reboot marker that never comes back after the
reboot command: every later probe times out. -/
def envRebootFail : Env := fun _ _ c =>
  if c = "ls /var/run" then .ok ("reboot-required\nlock", "")
  else if c = "sudo systemctl reboot" then .ok ("", "")
  else .error .timeout

/-- C4 (behaviour at the three scenario classes): marker absent — `False`,
zero reboot commands; marker present and host returns — `True`, exactly one
reboot command, the 5-second pre-poll pause recorded before any poll sleep;
marker present and host never returns — the code raises
`NameError` (`.nameError "DSDCommandError"`), since `DSDCommandError` is
undefined in the module, instead of the documented `DSDCommandError`. -/
theorem reboot_coordinator_behavior :
    ((reboot_if_required envNoReboot st0).1 = .ok false ∧
      ((reboot_if_required envNoReboot st0).2.trace.filter
        (fun p => p.2 = "sudo systemctl reboot")).length = 0) ∧
    ((reboot_if_required envRebootOk st0).1 = .ok true ∧
      ((reboot_if_required envRebootOk st0).2.trace.filter
        (fun p => p.2 = "sudo systemctl reboot")).length = 1 ∧
      (reboot_if_required envRebootOk st0).2.sleeps = [5]) ∧
    ((reboot_if_required envRebootFail st0).1 =
      .error (.nameError "DSDCommandError") ∧
      (reboot_if_required envRebootFail st0).2.sleeps =
        5 :: List.replicate 30 10) :=
  ⟨⟨rfl, rfl⟩, ⟨rfl, rfl, rfl⟩, ⟨rfl, rfl⟩⟩

/-- C6 (behaviour at the failing input): with the four provisioning
commands succeeding under `root` and every verification probe under
`django_user` timing out, `add_server_user` performs the 4 provisioning
attempts followed by 30 probes all under the new identity (the switch
happens before the poll), and then raises `NameError`
(`.nameError "DSDCommandError"`) — not the documented `DSDCommandError`. -/
theorem provisioning_verification_failure_run :
    (add_server_user envProvisionFail none st0).1 =
      .error (.nameError "DSDCommandError") ∧
    (add_server_user envProvisionFail none st0).2.trace.length = 34 ∧
    ((add_server_user envProvisionFail none st0).2.trace.take 4).all
      (fun p => p.1 == "root") = true ∧
    ((add_server_user envProvisionFail none st0).2.trace.drop 4).all
      (fun p => p.1 == "django_user" && p.2 == "uptime") = true :=
  ⟨rfl, rfl, rfl, rfl⟩
